import Mathlib

/-!
Shallow embedding of the Logicbone platform definitions from
luna/gateware/platform/logicbone.py and luna/gateware/platform/core.py:
the toolchain hooks, the resource and connector tables, and the clock
domain generator, together with theorems about them.
-/

namespace Luna

/-- Python exceptions that the embedded code can raise. -/
inductive PyError where
  | calledProcessError (returncode : Int)
  | typeError (msg : String)
  | attributeError (msg : String)
deriving DecidableEq, Repr

/-- True exactly when the computation raised an exception. -/
def raisesException {α : Type} : Except PyError α → Bool
  | Except.error _ => true
  | Except.ok _ => false

/-- True exactly when the computation raised an AttributeError. -/
def isAttributeError {α : Type} : Except PyError α → Bool
  | Except.error (PyError.attributeError _) => true
  | _ => false

/-- The argument vector that LogicbonePlatform.toolchain_program passes to
subprocess.check_call: the dfu-util executable (the value of the DFU_UTIL
environment variable when set, the string dfu-util otherwise) followed by
the fixed flags and the extracted bitstream filename
(logicbone.py, lines 226 and 228). -/
def dfuCommand (dfuUtilEnv : Option String) (bitstream_filename : String) : List String :=
  [dfuUtilEnv.getD "dfu-util", "-d", "1d50:615d", "-a", "0", "-R", "-D", bitstream_filename]

/-- Observable effects of one call to LogicbonePlatform.toolchain_program:
which build products were extracted, which child processes were invoked,
and the final outcome. -/
structure ProgramRun where
  extracted : List String
  calls : List (List String)
  result : Except PyError Unit
deriving Repr

/-- LogicbonePlatform.toolchain_program (logicbone.py, lines 225 to 228).
dfuUtilEnv models os.environ.get applied to DFU_UTIL (none when the
variable is unset); extract models products.extract, mapping a product
name to the filename it is materialised at; run models executing a child
process, returning its exit status.  subprocess.check_call raises
CalledProcessError exactly when that exit status is non-zero. -/
def toolchain_program (dfuUtilEnv : Option String) (extract : String → String)
    (run : List String → Int) (name : String) : ProgramRun :=
  let bitstream_filename := extract (name ++ ".bit")
  let argv := dfuCommand dfuUtilEnv bitstream_filename
  { extracted := [name ++ ".bit"]
    calls := [argv]
    result :=
      if run argv = 0 then Except.ok ()
      else Except.error (PyError.calledProcessError (run argv)) }

/-- A Python dict with string keys and values, as an association list in
insertion order (keys of an actual dict are pairwise distinct, but no
theorem below needs to assume that). -/
abbrev PyDict := List (String × String)

/-- Python dict item assignment: overwrite the value when the key is
already present, append the item otherwise. -/
def setItem (d : PyDict) (k v : String) : PyDict :=
  if (d.map Prod.fst).contains k then
    d.map (fun p => if p.1 = k then (k, v) else p)
  else d ++ [(k, v)]

/-- Python dict.update: assign every item of kw into d, left to right. -/
def dictUpdate (d : PyDict) (kw : PyDict) : PyDict :=
  kw.foldl (fun acc p => setItem acc p.1 p.2) d

/-- Expanding two double-star dictionaries in a single Python call, as in
f(**a, **b): a TypeError when some key occurs in both dictionaries, the
concatenated keyword list otherwise. -/
def mergeKwargs (a b : PyDict) : Except PyError PyDict :=
  match b.find? (fun p => (a.map Prod.fst).contains p.1) with
  | some p => Except.error (PyError.typeError
      ("toolchain_prepare got multiple values for keyword argument " ++ p.1))
  | none => Except.ok (a ++ b)

/-- The bitstream packer option string set by
LogicbonePlatform.toolchain_prepare (logicbone.py, line 221). -/
def ecppackOpts : String := "--compress --spimode qspi --freq 38.8"

/-- LogicbonePlatform.toolchain_prepare (logicbone.py, lines 220 to 223):
overrides is a fresh dict holding ecppack_opts, overrides.update(kwargs)
is applied, and the superclass toolchain_prepare is then called expanding
both **overrides and **kwargs.  superPrep models the superclass method,
applied to the fragment, the name and the keyword arguments it receives. -/
def toolchain_prepare {α : Type} (superPrep : String → String → PyDict → α)
    (fragment name : String) (kwargs : PyDict) : Except PyError α :=
  let overrides := dictUpdate [("ecppack_opts", ecppackOpts)] kwargs
  (mergeKwargs overrides kwargs).map (fun merged => superPrep fragment name merged)

theorem mem_keys_setItem (d : PyDict) (a b k : String) (h : k ∈ d.map Prod.fst) :
    k ∈ (setItem d a b).map Prod.fst := by
  unfold setItem
  by_cases hc : (d.map Prod.fst).contains a
  · rw [if_pos hc]
    obtain ⟨p, hp, hfst⟩ := List.mem_map.mp h
    refine List.mem_map.mpr ⟨if p.1 = a then (a, b) else p, List.mem_map.mpr ⟨p, hp, rfl⟩, ?_⟩
    by_cases hpa : p.1 = a
    · rw [if_pos hpa]
      rw [← hfst, hpa]
    · rw [if_neg hpa]
      exact hfst
  · rw [if_neg hc, List.map_append]
    exact List.mem_append_left _ h

theorem self_mem_keys_setItem (d : PyDict) (a b : String) :
    a ∈ (setItem d a b).map Prod.fst := by
  unfold setItem
  by_cases hc : (d.map Prod.fst).contains a
  · rw [if_pos hc]
    have hmem : a ∈ d.map Prod.fst := by
      simpa [List.contains] using hc
    obtain ⟨p, hp, hfst⟩ := List.mem_map.mp hmem
    refine List.mem_map.mpr ⟨if p.1 = a then (a, b) else p, List.mem_map.mpr ⟨p, hp, rfl⟩, ?_⟩
    rw [if_pos hfst]
  · rw [if_neg hc, List.map_append]
    exact List.mem_append_right _ (by simp)

theorem mem_keys_dictUpdate (kw : PyDict) (d : PyDict) (k : String)
    (h : k ∈ d.map Prod.fst) : k ∈ (dictUpdate d kw).map Prod.fst := by
  induction kw generalizing d with
  | nil => exact h
  | cons p tl ih => exact ih (setItem d p.1 p.2) (mem_keys_setItem d p.1 p.2 k h)

theorem mergeKwargs_error_of_shared_key (a b : PyDict) (k : String)
    (hka : k ∈ a.map Prod.fst) (hkb : k ∈ b.map Prod.fst) :
    ∃ msg, mergeKwargs a b = Except.error (PyError.typeError msg) := by
  unfold mergeKwargs
  cases hf : b.find? (fun p => (a.map Prod.fst).contains p.1) with
  | some p => exact ⟨_, rfl⟩
  | none =>
    exfalso
    obtain ⟨p, hp, hfst⟩ := List.mem_map.mp hkb
    have hnot := List.find?_eq_none.mp hf p hp
    rw [hfst] at hnot
    exact hnot (by simpa [List.contains] using hka)

theorem mergeKwargs_nil (a : PyDict) : mergeKwargs a [] = Except.ok a := by
  simp [mergeKwargs]

/-- C1: for every environment, build products and design name,
toolchain_program raises CalledProcessError exactly when the invoked
dfu-util child process exits with a non-zero status, and returns normally
exactly when it exits with status zero. -/
theorem toolchain_program_propagates_failure (dfuUtilEnv : Option String)
    (extract : String → String) (run : List String → Int) (name : String) :
    ((toolchain_program dfuUtilEnv extract run name).result
        = Except.error (PyError.calledProcessError
            (run (dfuCommand dfuUtilEnv (extract (name ++ ".bit")))))
      ↔ run (dfuCommand dfuUtilEnv (extract (name ++ ".bit"))) ≠ 0) ∧
    ((toolchain_program dfuUtilEnv extract run name).result = Except.ok ()
      ↔ run (dfuCommand dfuUtilEnv (extract (name ++ ".bit"))) = 0) := by
  by_cases h : run (dfuCommand dfuUtilEnv (extract (name ++ ".bit"))) = 0 <;>
    simp [toolchain_program, h]

/-- C2: toolchain_program extracts exactly the bitstream product
name ++ ".bit" and performs exactly one subprocess invocation, whose
argument vector is the dfu-util executable (DFU_UTIL environment variable
when set, dfu-util otherwise) with the fixed device, altsetting, reset and
download flags and the extracted bitstream filename. -/
theorem toolchain_program_single_invocation (dfuUtilEnv : Option String)
    (extract : String → String) (run : List String → Int) (name : String) :
    (toolchain_program dfuUtilEnv extract run name).extracted = [name ++ ".bit"] ∧
    (toolchain_program dfuUtilEnv extract run name).calls
      = [[dfuUtilEnv.getD "dfu-util", "-d", "1d50:615d", "-a", "0", "-R", "-D",
          extract (name ++ ".bit")]] :=
  ⟨rfl, rfl⟩

/-- C3: with no extra keyword arguments, toolchain_prepare invokes the
superclass toolchain_prepare with the same fragment and name plus
ecppack_opts set to the fixed packer option string, and returns the
superclass result unchanged as a normal (non-raising) return. -/
theorem toolchain_prepare_default_path {α : Type}
    (superPrep : String → String → PyDict → α) (fragment name : String) :
    toolchain_prepare superPrep fragment name []
      = Except.ok (superPrep fragment name
          [("ecppack_opts", "--compress --spimode qspi --freq 38.8")]) :=
  rfl

/-- C8: toolchain_prepare raises TypeError exactly when a non-empty set of
extra keyword arguments is passed: every key of kwargs is first merged into
overrides, and the superclass call then expands both dictionaries, passing
each such key twice; the call succeeds only when kwargs is empty. -/
theorem toolchain_prepare_duplicate_kwargs {α : Type}
    (superPrep : String → String → PyDict → α) (fragment name : String)
    (kwargs : PyDict) :
    (∃ msg, toolchain_prepare superPrep fragment name kwargs
        = Except.error (PyError.typeError msg)) ↔ kwargs ≠ [] := by
  constructor
  · rintro ⟨msg, hmsg⟩ hnil
    rw [hnil] at hmsg
    simp [toolchain_prepare, dictUpdate, mergeKwargs, Except.map] at hmsg
  · intro hne
    match kwargs, hne with
    | (k, v) :: tl, _ =>
      have hkey : k ∈ (dictUpdate [("ecppack_opts", ecppackOpts)] ((k, v) :: tl)).map Prod.fst := by
        show k ∈ (dictUpdate (setItem [("ecppack_opts", ecppackOpts)] k v) tl).map Prod.fst
        exact mem_keys_dictUpdate tl _ k (self_mem_keys_setItem _ k v)
      obtain ⟨msg, hmsg⟩ := mergeKwargs_error_of_shared_key
        (dictUpdate [("ecppack_opts", ecppackOpts)] ((k, v) :: tl)) ((k, v) :: tl) k
        hkey (by simp)
      refine ⟨msg, ?_⟩
      simp only [toolchain_prepare, hmsg, Except.map]

/-- An nMigen signal expression, as used by LogicboneDomainGenerator:
named signals, per-domain clock and reset signals, integer constants and
bitwise negation. -/
inductive SigExpr where
  | sig (name : String)
  | clock (domain : String)
  | reset (domain : String)
  | const (n : Nat)
  | not (e : SigExpr)
deriving DecidableEq, Repr

/-- A parameter value of an nMigen Instance: a string or a number. -/
inductive PVal where
  | s (v : String)
  | n (v : Int)
deriving DecidableEq, Repr

/-- An instantiated hardware primitive (nMigen Instance): its kind and its
parameter, input-port, output-port and synthesis-attribute bindings. -/
structure NInstance where
  kind : String
  params : List (String × PVal)
  inputs : List (String × SigExpr)
  outputs : List (String × SigExpr)
  attrs : List (String × String)
deriving DecidableEq, Repr

/-- The elaborated form of an nMigen module, restricted to what
LogicboneDomainGenerator.elaborate produces: created clock domains,
instantiated primitives, and combinational assignments (left-hand side,
right-hand side), in order. -/
structure NModule where
  domains : List String
  instances : List NInstance
  comb : List (SigExpr × SigExpr)
deriving DecidableEq, Repr

/-- LogicboneDomainGenerator: its constructor body is just pass
(logicbone.py, lines 32 and 33), so the object carries no state. -/
structure LogicboneDomainGenerator where
deriving DecidableEq, Repr

/-- The LogicboneDomainGenerator constructor: both keyword arguments,
clock_frequencies and clock_signal_name, are accepted and discarded
(the body is pass). -/
def LogicboneDomainGenerator.init {α β : Type}
    (_clock_frequencies : α) (_clock_signal_name : β) : LogicboneDomainGenerator :=
  ⟨⟩

/-- LogicboneDomainGenerator.elaborate (logicbone.py, lines 35 to 135).
platform_default_clk is the name of the platform resource requested as the
input clock (platform.default_clk).  The module creates the four clock
domains, instantiates the single EHXPLLL primitive with its fixed
parameters, and adds the six combinational assignments in source order. -/
def LogicboneDomainGenerator.elaborate (_self : LogicboneDomainGenerator)
    (platform_default_clk : String) : NModule :=
  let locked := SigExpr.sig "locked"
  let input_clock := SigExpr.sig platform_default_clk
  let feedback := SigExpr.sig "feedback"
  { domains := ["sync", "usb", "usb_io", "fast"]
    instances := [{
      kind := "EHXPLLL"
      params := [
        ("PLLRST_ENA", PVal.s "DISABLED"),
        ("INTFB_WAKE", PVal.s "DISABLED"),
        ("STDBY_ENABLE", PVal.s "DISABLED"),
        ("DPHASE_SOURCE", PVal.s "DISABLED"),
        ("OUTDIVIDER_MUXA", PVal.s "DIVA"),
        ("OUTDIVIDER_MUXB", PVal.s "DIVB"),
        ("OUTDIVIDER_MUXC", PVal.s "DIVC"),
        ("OUTDIVIDER_MUXD", PVal.s "DIVD"),
        ("CLKI_DIV", PVal.n 5),
        ("CLKOP_ENABLE", PVal.s "ENABLED"),
        ("CLKOP_DIV", PVal.n 16),
        ("CLKOP_CPHASE", PVal.n 9),
        ("CLKOP_FPHASE", PVal.n 0),
        ("CLKOS_DIV", PVal.n 10),
        ("CLKOS_CPHASE", PVal.n 0),
        ("CLKOS_FPHASE", PVal.n 0),
        ("CLKOS2_ENABLE", PVal.s "ENABLED"),
        ("CLKOS2_DIV", PVal.n 10),
        ("CLKOS2_CPHASE", PVal.n 0),
        ("CLKOS2_FPHASE", PVal.n 0),
        ("CLKOS3_ENABLE", PVal.s "ENABLED"),
        ("CLKOS3_DIV", PVal.n 40),
        ("CLKOS3_CPHASE", PVal.n 5),
        ("CLKOS3_FPHASE", PVal.n 0),
        ("FEEDBK_PATH", PVal.s "CLKOP"),
        ("CLKFB_DIV", PVal.n 6)]
      inputs := [
        ("CLKI", input_clock),
        ("CLKFB", feedback),
        ("RST", SigExpr.const 0),
        ("PHASESEL0", SigExpr.const 0),
        ("PHASESEL1", SigExpr.const 0),
        ("PHASEDIR", SigExpr.const 1),
        ("PHASESTEP", SigExpr.const 1),
        ("PHASELOADREG", SigExpr.const 1),
        ("STDBY", SigExpr.const 0),
        ("PLLWAKESYNC", SigExpr.const 0),
        ("ENCLKOP", SigExpr.const 0),
        ("ENCLKOS2", SigExpr.const 0)]
      outputs := [
        ("LOCK", locked),
        ("CLKOP", feedback),
        ("CLKOS2", SigExpr.clock "sync"),
        ("CLKOS3", SigExpr.clock "usb")]
      attrs := [
        ("FREQUENCY_PIN_CLKI", "25"),
        ("FREQUENCY_PIN_CLKOP", "48"),
        ("FREQUENCY_PIN_CLKOS", "48"),
        ("FREQUENCY_PIN_CLKOS2", "12"),
        ("ICP_CURRENT", "12"),
        ("LPF_RESISTOR", "8"),
        ("MFG_ENABLE_FILTEROPAMP", "1"),
        ("MFG_GMCREF_SEL", "2")] }]
    comb := [
      (SigExpr.clock "usb_io", SigExpr.clock "sync"),
      (SigExpr.clock "fast", SigExpr.clock "sync"),
      (SigExpr.reset "sync", SigExpr.not locked),
      (SigExpr.reset "usb", SigExpr.not locked),
      (SigExpr.reset "usb_io", SigExpr.not locked),
      (SigExpr.reset "fast", SigExpr.not locked)] }

/-- Lookup of one PLL parameter in the elaborated module, across all
instantiated primitives. -/
def pllParam (m : NModule) (p : String) : Option PVal :=
  ((m.instances.map NInstance.params).flatten).lookup p

/-- C5: elaborate instantiates exactly one EHXPLLL primitive whose LOCK
output drives the signal locked, creates the domains sync, usb, usb_io and
fast, and its combinational assignments set the reset of each of the four
domains to the negation of locked and the clocks of usb_io and fast to the
clock of sync. -/
theorem elaborate_single_pll_and_wiring (g : LogicboneDomainGenerator)
    (clk : String) :
    (g.elaborate clk).instances.map NInstance.kind = ["EHXPLLL"] ∧
    (g.elaborate clk).instances.map NInstance.outputs
      = [[("LOCK", SigExpr.sig "locked"), ("CLKOP", SigExpr.sig "feedback"),
          ("CLKOS2", SigExpr.clock "sync"), ("CLKOS3", SigExpr.clock "usb")]] ∧
    (g.elaborate clk).domains = ["sync", "usb", "usb_io", "fast"] ∧
    (g.elaborate clk).comb = [
      (SigExpr.clock "usb_io", SigExpr.clock "sync"),
      (SigExpr.clock "fast", SigExpr.clock "sync"),
      (SigExpr.reset "sync", SigExpr.not (SigExpr.sig "locked")),
      (SigExpr.reset "usb", SigExpr.not (SigExpr.sig "locked")),
      (SigExpr.reset "usb_io", SigExpr.not (SigExpr.sig "locked")),
      (SigExpr.reset "fast", SigExpr.not (SigExpr.sig "locked"))] :=
  ⟨rfl, rfl, rfl, rfl⟩

/-- C6: the PLL configuration does not depend on the constructor
arguments: for all values (of any types) of clock_frequencies and
clock_signal_name, the elaborated module is identical, and its divider and
phase parameters are the fixed constants CLKI_DIV 5, CLKOP_DIV 16,
CLKOS_DIV 10, CLKOS2_DIV 10, CLKOS3_DIV 40, CLKFB_DIV 6 with CPHASE values
9, 0, 0, 5 and FPHASE values all 0. -/
theorem pll_config_independent_of_args {α β γ δ : Type}
    (cf : α) (cs : β) (cf2 : γ) (cs2 : δ) (clk : String) :
    (LogicboneDomainGenerator.init cf cs).elaborate clk
      = (LogicboneDomainGenerator.init cf2 cs2).elaborate clk ∧
    pllParam ((LogicboneDomainGenerator.init cf cs).elaborate clk) "CLKI_DIV"
      = some (PVal.n 5) ∧
    pllParam ((LogicboneDomainGenerator.init cf cs).elaborate clk) "CLKOP_DIV"
      = some (PVal.n 16) ∧
    pllParam ((LogicboneDomainGenerator.init cf cs).elaborate clk) "CLKOS_DIV"
      = some (PVal.n 10) ∧
    pllParam ((LogicboneDomainGenerator.init cf cs).elaborate clk) "CLKOS2_DIV"
      = some (PVal.n 10) ∧
    pllParam ((LogicboneDomainGenerator.init cf cs).elaborate clk) "CLKOS3_DIV"
      = some (PVal.n 40) ∧
    pllParam ((LogicboneDomainGenerator.init cf cs).elaborate clk) "CLKFB_DIV"
      = some (PVal.n 6) ∧
    pllParam ((LogicboneDomainGenerator.init cf cs).elaborate clk) "CLKOP_CPHASE"
      = some (PVal.n 9) ∧
    pllParam ((LogicboneDomainGenerator.init cf cs).elaborate clk) "CLKOP_FPHASE"
      = some (PVal.n 0) ∧
    pllParam ((LogicboneDomainGenerator.init cf cs).elaborate clk) "CLKOS_CPHASE"
      = some (PVal.n 0) ∧
    pllParam ((LogicboneDomainGenerator.init cf cs).elaborate clk) "CLKOS_FPHASE"
      = some (PVal.n 0) ∧
    pllParam ((LogicboneDomainGenerator.init cf cs).elaborate clk) "CLKOS2_CPHASE"
      = some (PVal.n 0) ∧
    pllParam ((LogicboneDomainGenerator.init cf cs).elaborate clk) "CLKOS2_FPHASE"
      = some (PVal.n 0) ∧
    pllParam ((LogicboneDomainGenerator.init cf cs).elaborate clk) "CLKOS3_CPHASE"
      = some (PVal.n 5) ∧
    pllParam ((LogicboneDomainGenerator.init cf cs).elaborate clk) "CLKOS3_FPHASE"
      = some (PVal.n 0) :=
  ⟨rfl, rfl, rfl, rfl, rfl, rfl, rfl, rfl, rfl, rfl, rfl, rfl, rfl, rfl, rfl⟩

/-- Helper for pySplit: walk the character list, accumulating the current
token in reverse; whitespace closes the current token, and empty tokens
are dropped. -/
def splitWSAux : List Char → List Char → List String
  | [], acc => if acc = [] then [] else [String.mk acc.reverse]
  | c :: rest, acc =>
    if c.isWhitespace then
      (if acc = [] then [] else [String.mk acc.reverse]) ++ splitWSAux rest []
    else
      splitWSAux rest (c :: acc)

/-- Python str.split with no argument: split on runs of whitespace,
discarding empty tokens. -/
def pySplit (s : String) : List String :=
  splitWSAux s.toList []

/-- The (name, number) pairs of the entries of LogicbonePlatform.resources
(logicbone.py, lines 150 to 205), with the nmigen_boards helper calls
expanded to the resource entries they construct: LEDResources yields one
led resource per pin (numbers 0 to 3), SwitchResources yields switch 0,
SPIFlashResources yields the three access-mode variants spi_flash_1x,
spi_flash_2x and spi_flash_4x (all number 0), and SDCardResources yields
sd_card_spi 0 and sd_card 0 (nmigen_boards.resources, an external
dependency of the file). -/
def resources : List (String × Nat) := [
  ("rst", 0), ("refclk", 0),
  ("usb", 0), ("usb", 1),
  ("led", 0), ("led", 1), ("led", 2), ("led", 3),
  ("switch", 0),
  ("spi_flash_1x", 0), ("spi_flash_2x", 0), ("spi_flash_4x", 0),
  ("sd_card_spi", 0), ("sd_card", 0),
  ("eth_clk125", 0), ("eth_rgmii", 0),
  ("ddr3", 0)]

/-- Every physical pin string written in LogicbonePlatform.resources
(logicbone.py, lines 150 to 205), one entry per Pins, PinsN, DiffPairs or
named-pin argument, in source order: rst, refclk, the two usb ports, the
led pins, the switch, the spi flash pins, the sd card pins, the ethernet
clock and rgmii pins, and the ddr3 pins. -/
def resourcePinStrings : List String := [
  "C17", "M19",
  "B12", "C12", "C16",
  "R1", "T1", "T2",
  "D16 C15 C13 B13",
  "U2",
  "R2", "U3", "V2", "W2", "Y2", "W1",
  "E11", "D15", "D14", "D13", "E13", "E15", "E13",
  "A19",
  "B20", "D12", "B19", "A15", "B15", "A12 A13 C14 A14", "B18", "A18",
  "B17 A17 B16 A16",
  "P1", "M4", "N5", "K4", "M3", "E4", "L1", "M1",
  "D5 F4 B3 F3 E5 C3 C4 A5 A3 B5 G3 F5 D2 A4 D3 E3",
  "B4 H5 N2", "K2 H4", "J1 G5",
  "G2 K1 F1 K3 H2 J3 G1 H1 B1 E1 A2 F2 C1 E2 C2 D1",
  "L4 J5", "C5"]

/-- All physical pin tokens assigned in LogicbonePlatform.resources. -/
def allPins : List String := (resourcePinStrings.map pySplit).flatten

/-- C4 counterexample: resource names alone are not unique in
LogicbonePlatform.resources: the name usb occurs twice (numbers 0 and 1,
logicbone.py lines 155 and 156) and the name led occurs four times. -/
theorem resources_names_not_unique : ¬ (resources.map Prod.fst).Nodup := by
  decide

/-- C4 amended: resources are identified by name and number together, and
no two entries of LogicbonePlatform.resources carry the same
(name, number) pair. -/
theorem resources_name_number_unique : resources.Nodup := by
  decide

/-- C10: the pin E13 is assigned twice in LogicbonePlatform.resources, to
sd_card dat1 and to sd_card dat3 (logicbone.py, line 169), while every
other pin token occurs exactly once. -/
theorem pin_E13_assigned_twice :
    allPins.count "E13" = 2 ∧ (allPins.filter (fun p => p ≠ "E13")).Nodup := by
  decide

/-- The pin string of connector P8 of LogicbonePlatform.connectors
(logicbone.py, lines 207 to 211), exactly as written in the source. -/
def p8_pins : String :=
  "\n        -   -   C20 D19 D20 E19 E20 F19 F20 G20 -   -   -   -   -   -\n        -   -   -   -   -   -   G19 H20 J20 K20 C18 D17 D18 E17 E18 F18\n        F17 G18 E16 F16 G16 H16 J17 J16 H18 H17 J19 K19 J18 K18\n        "

/-- The pin string of connector P9 of LogicbonePlatform.connectors
(logicbone.py, lines 212 to 216), exactly as written in the source. -/
def p9_pins : String :=
  "\n        -   -   -   -   -   -   -   -   -   -   -   A11 B11 A10 C10 A9\n        B9  C11 A8  -   -   D9  C8  B8  A7  A6  B6  D8  C7  D7  C6  D6\n        -   -   -   -   -   -   -   -   -   B10 E10 -   -   -\n        "

/-- LogicbonePlatform.connectors: each connector has a name, a number and
its whitespace-separated pin string. -/
def connectors : List (String × Nat × String) :=
  [("P8", 0, p8_pins), ("P9", 0, p9_pins)]

/-- The nMigen Connector slot mapping for a whitespace-separated pin
string: slot k (counting from 1) maps to the k-th token, and the token -
marks an unused slot carrying no mapping (nmigen.build.dsl.Connector,
which enumerates the split tokens starting at 1 and skips -). -/
def slotPin (io : String) (k : Nat) : Option String :=
  match (pySplit io).get? (k - 1) with
  | some tok => if tok = "-" then none else some tok
  | none => none

/-- C7: in connectors P8 and P9 the k-th whitespace-separated token names
the physical pin of slot k, with - marking an unused slot: P8 slots 1 and
2 are unused, P8 slot 3 maps to pin C20, its last slot 46 maps to K18, P9
slot 1 is unused and P9 slot 12 maps to A11; each table has 46 slots. -/
theorem connector_slot_mapping :
    slotPin p8_pins 1 = none ∧
    slotPin p8_pins 2 = none ∧
    slotPin p8_pins 3 = some "C20" ∧
    slotPin p8_pins 46 = some "K18" ∧
    (pySplit p8_pins).length = 46 ∧
    slotPin p9_pins 1 = none ∧
    slotPin p9_pins 12 = some "A11" ∧
    (pySplit p9_pins).length = 46 := by
  decide

/-- A value reachable through attribute lookup on the Python logging
module, restricted to the names request_optional can look up: the bound
module-level logging functions, and the warnings module. -/
inductive LogAttrValue where
  | debugFunction
  | warningFunction
  | warningsModule
deriving DecidableEq, Repr

/-- Attribute lookup on the Python stdlib logging module (an external
dependency of core.py): debug and warning are module-level functions,
while warnings is the warnings module itself, which logging imports at its
top (logging/__init__.py begins with import sys, os, time, io, re,
traceback, warnings, weakref, collections.abc), so logging.warnings is a
module-valued attribute rather than a missing name; any other name raises
AttributeError. -/
def loggingAttr : String → Except PyError LogAttrValue
  | "debug" => Except.ok LogAttrValue.debugFunction
  | "warning" => Except.ok LogAttrValue.warningFunction
  | "warnings" => Except.ok LogAttrValue.warningsModule
  | a => Except.error (PyError.attributeError ("module logging has no attribute " ++ a))

/-- Calling a looked-up logging attribute with one message argument: the
logging functions log the message and return None, while a module is not
callable, so Python raises TypeError. -/
def callLogAttr : LogAttrValue → String → Except PyError Unit
  | LogAttrValue.warningsModule, _ =>
      Except.error (PyError.typeError "module object is not callable")
  | _, _ => Except.ok ()

/-- LUNAPlatform.request_optional (core.py, lines 18 to 40).  requested
models the underlying self.request call: some value on success, none when
it raises ResourceError.  In the ResourceError handler, log is bound to
logging.warnings when expected is true and to logging.debug otherwise, the
skip message is logged through it, and default is returned. -/
def request_optional {α : Type} (requested : Option α) (name : String)
    (number : Nat) (default : α) (expected : Bool) : Except PyError α :=
  match requested with
  | some v => Except.ok v
  | none =>
    match loggingAttr (if expected then "warnings" else "debug") with
    | Except.error e => Except.error e
    | Except.ok logf =>
      match callLogAttr logf ("Skipping resource " ++ name ++ "/" ++ toString number
          ++ ", as it is not present on this platform.") with
      | Except.error e => Except.error e
      | Except.ok _ => Except.ok default

/-- C9 counterexample: at a concrete request that raises ResourceError
with expected set to true, request_optional does raise, but the exception
is not an AttributeError: logging.warnings exists (it is the warnings
module imported by logging), and the failure happens only when the handler
calls it. -/
theorem request_optional_expected_no_attribute_error :
    raisesException (request_optional (none : Option Nat) "led" 0 0 true) = true ∧
    isAttributeError (request_optional (none : Option Nat) "led" 0 0 true) = false := by
  decide

/-- C9 amended: when the underlying request raises ResourceError, with
expected false request_optional logs at debug level and returns exactly
the default argument without raising, and with expected true it does not
return the default but raises TypeError, because the handler evaluates
logging.warnings, which is the warnings module and is not callable. -/
theorem request_optional_handler (α : Type) (name : String) (number : Nat)
    (dflt : α) :
    request_optional (none : Option α) name number dflt false
      = Except.ok dflt ∧
    request_optional (none : Option α) name number dflt true
      = Except.error (PyError.typeError "module object is not callable") :=
  ⟨rfl, rfl⟩

end Luna
